import Mathlib

/-!
Verification of the BRVM portfolio manager order-validation and ledger
engine (class BRVMPortfolioManager in app.py).  Prices and currency
amounts are modelled as rationals, share quantities as integers, and the
wall clock read by datetime.now() as an abstract integer parameter.  The
portfolio dictionary is modelled as an association list with unique keys,
matching Python dict semantics.
-/

namespace BRVM

/-- One row of the BRVM market-data table: reference price, daily change
percent, average daily volume, sector label. -/
structure MarketInfo where
  price : ℚ
  change : ℚ
  volume : ℚ
  sector : String
deriving DecidableEq

/-- A held position: share count, weighted average purchase price, sector
copied from the instrument at acquisition. -/
structure Position where
  quantity : ℤ
  avg_price : ℚ
  sector : String
deriving DecidableEq

/-- Order side; the source passes the strings BUY / SELL. -/
inductive Side where
  | BUY
  | SELL
deriving DecidableEq

/-- A recorded transaction, as appended to the session transaction log. -/
structure Transaction where
  timestamp : ℤ
  symbol : String
  side : Side
  quantity : ℤ
  price : ℚ
  commission : ℚ
  total : ℚ
  settlement_date : ℤ
deriving DecidableEq

/-- The mutable session state owned by the ledger: portfolio dictionary,
append-only transaction log, cash balance. -/
structure State where
  portfolio : List (String × Position)
  transactions : List Transaction
  cash_balance : ℚ
deriving DecidableEq

/-- Dictionary lookup on an association list (Python d[k] / k in d). -/
def lookupEntry {α : Type} : List (String × α) → String → Option α
  | [], _ => none
  | (k, v) :: rest, s => if k = s then some v else lookupEntry rest s

/-- Dictionary write d[k] = v: replace the entry if the key is present,
append it otherwise (Python dicts keep insertion order). -/
def setEntry {α : Type} : List (String × α) → String → α → List (String × α)
  | [], s, v => [(s, v)]
  | (k, w) :: rest, s, v =>
      if k = s then (s, v) :: rest else (k, w) :: setEntry rest s v

/-- Dictionary delete del d[k]: drop every entry with the key (a dict
holds at most one). -/
def eraseEntry {α : Type} : List (String × α) → String → List (String × α)
  | [], _ => []
  | (k, w) :: rest, s =>
      if k = s then eraseEntry rest s else (k, w) :: eraseEntry rest s

/-- The simulated BRVM market data (load_market_data). -/
def market_data : List (String × MarketInfo) :=
  [ ("BICC", ⟨8500, 2.5, 15000, "Construction"⟩),
    ("BOAB", ⟨4200, -1.2, 8500, "Banque"⟩),
    ("BOABF", ⟨4150, 0.8, 12000, "Banque"⟩),
    ("BOAC", ⟨3950, 1.5, 9500, "Banque"⟩),
    ("BOCIG", ⟨6200, -0.5, 7200, "Assurance"⟩),
    ("CFAC", ⟨850, 3.2, 25000, "Automobile"⟩),
    ("CGBC", ⟨1250, -2.1, 18000, "Commerce"⟩),
    ("EIBC", ⟨5800, 1.8, 11000, "Industrie"⟩),
    ("ETIT", ⟨18, 4.5, 45000, "Telecom"⟩),
    ("NEIC", ⟨4950, -1.8, 6800, "Assurance"⟩),
    ("NTLC", ⟨950, 2.2, 32000, "Textile"⟩),
    ("ORAC", ⟨2800, 0.5, 14500, "Mining"⟩),
    ("PALC", ⟨2950, -3.1, 8900, "Agro"⟩),
    ("PRSC", ⟨350, 1.9, 55000, "Distribution"⟩),
    ("SAFC", ⟨2450, -0.8, 16700, "Agro"⟩),
    ("SGBC", ⟨11500, 2.8, 5400, "Banque"⟩),
    ("SHEC", ⟨2750, 1.1, 19800, "Energie"⟩),
    ("SIBC", ⟨4800, -2.5, 7650, "Banque"⟩),
    ("SICC", ⟨1850, 0.9, 28500, "Ciment"⟩),
    ("SLBC", ⟨1950, 1.4, 13200, "Banque"⟩),
    ("SMBC", ⟨8200, -1.6, 4200, "Banque"⟩),
    ("SNTS", ⟨4650, 2.1, 9800, "Transport"⟩),
    ("SOGC", ⟨4950, 0.7, 15600, "Commerce"⟩),
    ("STAC", ⟨650, -1.9, 38000, "Agro"⟩),
    ("STBC", ⟨950, 3.5, 24500, "Banque"⟩),
    ("TTLC", ⟨350, 1.2, 65000, "Textile"⟩),
    ("UNLC", ⟨2850, -0.3, 11900, "Logistique"⟩) ]

/-- brvm_rules settlement_days: J+3 settlement. -/
def settlement_days : ℤ := 3

/-- brvm_rules min_lot_size; stored in the rule set but never consulted by
execute_order. -/
def min_lot_size : ℤ := 1

/-- brvm_rules price_limits static: the plus and minus 7.5 percent band. -/
def static_limit : ℚ := 0.075

/-- brvm_rules commission_rate: 0.6 percent commission. -/
def commission_rate : ℚ := 0.006

/-- brvm_rules min_commission: 5000 FCFA floor. -/
def min_commission : ℚ := 5000

/-- calculate_price_limits: the permissible band around a reference
price, returned as (lower, upper). -/
def calculate_price_limits (reference_price : ℚ) : ℚ × ℚ :=
  (reference_price * (1 - static_limit), reference_price * (1 + static_limit))

/-- calculate_commission: max(amount times rate, min_commission). -/
def calculate_commission (amount : ℚ) : ℚ :=
  max (amount * commission_rate) min_commission

/-- order_price = price if price else current_price: a missing limit
price, or the Python-falsy limit 0, resolves to the reference price. -/
def resolveOrderPrice (current_price : ℚ) (price : Option ℚ) : ℚ :=
  match price with
  | none => current_price
  | some p => if p = 0 then current_price else p

/-- The typed content of the (success, message) pair returned by
execute_order; each constructor carries the data the source interpolates
into the corresponding message string. -/
inductive ExecMessage where
  | symbolNotFound
  | priceOutOfLimits (lower upper : ℚ)
  | insufficientFunds
  | quantityTooLarge
  | buyExecuted (quantity : ℤ) (symbol : String) (price commission : ℚ)
  | insufficientHoldings
  | sellExecuted (quantity : ℤ) (symbol : String) (price commission : ℚ)
deriving DecidableEq

/-- Whether a message is the price-band rejection (Prix hors limites). -/
def ExecMessage.isOutOfBand : ExecMessage → Bool
  | .priceOutOfLimits _ _ => true
  | _ => false

/-- execute_order(symbol, order_type, quantity, price): validation and
ledger mutation, translated line for line from app.py; the parameter now
stands for the wall clock read by datetime.now() when the transaction is
recorded.  Returns the (success, message) pair together with the post
state. -/
def execute_order (market : List (String × MarketInfo)) (st : State) (now : ℤ)
    (symbol : String) (order_type : Side) (quantity : ℤ) (price : Option ℚ) :
    Bool × ExecMessage × State :=
  match lookupEntry market symbol with
  | none => (false, .symbolNotFound, st)
  | some info =>
    let current_price := info.price
    let order_price := resolveOrderPrice current_price price
    let lower_limit := (calculate_price_limits current_price).1
    let upper_limit := (calculate_price_limits current_price).2
    if order_price < lower_limit ∨ order_price > upper_limit then
      (false, .priceOutOfLimits lower_limit upper_limit, st)
    else
      let total_amount := (quantity : ℚ) * order_price
      let commission := calculate_commission total_amount
      match order_type with
      | .BUY =>
        let total_cost := total_amount + commission
        if st.cash_balance < total_cost then
          (false, .insufficientFunds, st)
        else if (quantity : ℚ) > info.volume * 0.1 then
          (false, .quantityTooLarge, st)
        else
          let port1 :=
            match lookupEntry st.portfolio symbol with
            | some pos =>
              let q1 := pos.quantity + quantity
              let old_value := pos.avg_price * (q1 : ℚ) - (quantity : ℚ) * order_price
              let new_avg := (old_value + (quantity : ℚ) * order_price) / (q1 : ℚ)
              setEntry st.portfolio symbol ⟨q1, new_avg, pos.sector⟩
            | none =>
              setEntry st.portfolio symbol ⟨quantity, order_price, info.sector⟩
          let txn : Transaction :=
            ⟨now, symbol, .BUY, quantity, order_price, commission, total_cost,
              now + settlement_days⟩
          (true, .buyExecuted quantity symbol order_price commission,
            ⟨port1, st.transactions ++ [txn], st.cash_balance - total_cost⟩)
      | .SELL =>
        match lookupEntry st.portfolio symbol with
        | none => (false, .insufficientHoldings, st)
        | some pos =>
          if pos.quantity < quantity then
            (false, .insufficientHoldings, st)
          else
            let total_received := total_amount - commission
            let q1 := pos.quantity - quantity
            let port1 :=
              if q1 = 0 then eraseEntry st.portfolio symbol
              else setEntry st.portfolio symbol ⟨q1, pos.avg_price, pos.sector⟩
            let txn : Transaction :=
              ⟨now, symbol, .SELL, quantity, order_price, commission, total_received,
                now + settlement_days⟩
            (true, .sellExecuted quantity symbol order_price commission,
              ⟨port1, st.transactions ++ [txn], st.cash_balance + total_received⟩)

/-- The freshly initialised session: empty portfolio, empty log, 1M FCFA. -/
def initial_state : State :=
  { portfolio := [], transactions := [], cash_balance := 1000000 }

/-- The BICC market row, used by concrete scenarios. -/
def infoBICC : MarketInfo := ⟨8500, 2.5, 15000, "Construction"⟩

/-- The BICC position held after scenario A (BUY 10 at 8500). -/
def posA : Position := ⟨10, 8500, "Construction"⟩

/-- The transaction recorded by scenario A (BUY 10 BICC at reference
price 8500, commission 5000, total debit 90000). -/
def txnA : Transaction := ⟨0, "BICC", .BUY, 10, 8500, 5000, 90000, 3⟩

/-- The session state after scenario A. -/
def stateA : State :=
  { portfolio := [("BICC", posA)],
    transactions := [txnA],
    cash_balance := 910000 }

end BRVM

namespace BRVM

theorem lookup_setEntry {α : Type} (l : List (String × α)) (s : String) (v : α) :
    lookupEntry (setEntry l s v) s = some v := by
  induction l with
  | nil => simp [setEntry, lookupEntry]
  | cons hd tl ih =>
    obtain ⟨k, w⟩ := hd
    by_cases hk : k = s
    · simp [setEntry, lookupEntry, hk]
    · simp [setEntry, lookupEntry, hk, ih]

theorem lookup_eraseEntry {α : Type} (l : List (String × α)) (s : String) :
    lookupEntry (eraseEntry l s) s = none := by
  induction l with
  | nil => simp [eraseEntry, lookupEntry]
  | cons hd tl ih =>
    obtain ⟨k, w⟩ := hd
    by_cases hk : k = s
    · simp [eraseEntry, hk, ih]
    · simp [eraseEntry, lookupEntry, hk, ih]

/-- Scenario A evaluated: BUY 10 BICC with no limit from the initial
state debits 90000 and creates the position of 10 shares at 8500. -/
theorem buyA_result :
    execute_order market_data initial_state 0 "BICC" .BUY 10 none =
      (true, .buyExecuted 10 "BICC" 8500 5000, stateA) := by
  simp [execute_order, market_data, initial_state, lookupEntry, setEntry, eraseEntry,
    resolveOrderPrice, calculate_price_limits, calculate_commission, static_limit,
    commission_rate, min_commission, settlement_days, stateA, posA, txnA]
  norm_num

/-- A SELL on the empty initial portfolio is rejected for insufficient
holdings with the state unchanged. -/
theorem sell_initial_rejected :
    execute_order market_data initial_state 0 "BICC" .SELL 10 none =
      (false, .insufficientHoldings, initial_state) := by
  simp [execute_order, market_data, initial_state, lookupEntry, setEntry, eraseEntry,
    resolveOrderPrice, calculate_price_limits, calculate_commission, static_limit,
    commission_rate, min_commission, settlement_days]
  norm_num

/-- Selling 4 of the 10 BICC shares of scenario A nets 29000 (34000 gross
minus the 5000 minimum commission) and keeps the average price. -/
theorem sellA_result :
    execute_order market_data stateA 0 "BICC" .SELL 4 none =
      (true, .sellExecuted 4 "BICC" 8500 5000,
        ⟨[("BICC", ⟨6, 8500, "Construction"⟩)],
          [txnA, ⟨0, "BICC", .SELL, 4, 8500, 5000, 29000, 3⟩],
          939000⟩) := by
  simp [execute_order, market_data, lookupEntry, setEntry, eraseEntry,
    resolveOrderPrice, calculate_price_limits, calculate_commission, static_limit,
    commission_rate, min_commission, settlement_days, stateA, posA, txnA]
  norm_num

end BRVM

namespace BRVM

/-- C1 (code bug): the spec requires the value-weighted average cost
(10 times 8500 plus 10 times 9000) over 20 = 8750 after the second BUY,
but the source increments the position quantity before computing the old
value, so the update formula algebraically reduces to the old average:
BUY 10 BICC at 8500 then BUY 10 BICC at limit 9000 leaves the position at
quantity 20 with average price still 8500, not 8750. -/
theorem C1_second_buy_keeps_old_avg_price :
    lookupEntry (execute_order market_data
        (execute_order market_data initial_state 0 "BICC" .BUY 10 none).2.2
        0 "BICC" .BUY 10 (some 9000)).2.2.portfolio "BICC" =
      some ⟨20, 8500, "Construction"⟩ ∧
    (8500 : ℚ) ≠ (10 * 8500 + 10 * 9000) / 20 := by
  constructor
  · rw [buyA_result]
    simp [execute_order, market_data, stateA, posA, txnA, lookupEntry, setEntry,
      eraseEntry, resolveOrderPrice, calculate_price_limits, calculate_commission,
      static_limit, commission_rate, min_commission, settlement_days]
    norm_num [lookupEntry]
  · norm_num

/-- C2 counterexample: from a state with zero (non-negative) cash holding
one ETIT share, an accepted SELL of 1 ETIT at the reference price 18
pays the 5000 minimum commission on gross proceeds 18 and leaves the
cash balance at minus 4982: the non-negativity invariant fails on SELL. -/
theorem C2_small_sell_negative_cash_cex :
    (execute_order market_data ⟨[("ETIT", ⟨1, 18, "Telecom"⟩)], [], 0⟩
      0 "ETIT" .SELL 1 none).1 = true ∧
    (execute_order market_data ⟨[("ETIT", ⟨1, 18, "Telecom"⟩)], [], 0⟩
      0 "ETIT" .SELL 1 none).2.2.cash_balance < 0 := by
  simp [execute_order, market_data, lookupEntry, setEntry, eraseEntry,
    resolveOrderPrice, calculate_price_limits, calculate_commission, static_limit,
    commission_rate, min_commission, settlement_days]
  norm_num

/-- C2 (amended): starting from any state with non-negative cash, the
cash balance is still non-negative after any accepted BUY order, because
the funds check guarantees the balance covers the total cost; an accepted
SELL can leave the balance negative when the minimum commission exceeds
the gross proceeds. -/
theorem C2_buy_preserves_nonneg_cash (market : List (String × MarketInfo))
    (st : State) (now : ℤ) (symbol : String) (quantity : ℤ) (price : Option ℚ)
    (h0 : 0 ≤ st.cash_balance)
    (hacc : (execute_order market st now symbol .BUY quantity price).1 = true) :
    0 ≤ (execute_order market st now symbol .BUY quantity price).2.2.cash_balance := by
  unfold execute_order at hacc ⊢
  cases hm : lookupEntry market symbol with
  | none => rw [hm] at hacc; simp at hacc
  | some info =>
    rw [hm] at hacc
    dsimp only at hacc ⊢
    split_ifs at hacc ⊢ with h1 h2 h3
    linarith [not_lt.mp h2]

/-- C2 witness: scenario A instantiates the amended claim. -/
theorem C2_buy_preserves_nonneg_cash_witness :
    0 ≤ (execute_order market_data initial_state 0 "BICC" .BUY 10 none).2.2.cash_balance :=
  C2_buy_preserves_nonneg_cash market_data initial_state 0 "BICC" 10 none
    (by norm_num [initial_state]) (by rw [buyA_result])

/-- C3 counterexample: a BUY of quantity 0 (not a positive multiple of the
lot size) on a known symbol is not rejected: it is accepted and the state
changes (the minimum commission is debited), refuting the claimed
InvalidQuantity rejection. -/
theorem C3_zero_quantity_not_rejected_cex :
    (execute_order market_data initial_state 0 "BICC" .BUY 0 none).1 = true ∧
    (execute_order market_data initial_state 0 "BICC" .BUY 0 none).2.2 ≠
      initial_state := by
  simp [execute_order, market_data, initial_state, lookupEntry, setEntry, eraseEntry,
    resolveOrderPrice, calculate_price_limits, calculate_commission, static_limit,
    commission_rate, min_commission, settlement_days, State.mk.injEq]
  norm_num

/-- C3 (amended): execute_order performs no quantity validation at all:
an order whose quantity is 0 passes every check that the source does
perform, so a BUY of quantity 0 on BICC from any state with at least the
5000 minimum commission in cash is accepted and debits exactly 5000. -/
theorem C3_zero_quantity_buy_accepted (st : State) (now : ℤ)
    (h : 5000 ≤ st.cash_balance) :
    (execute_order market_data st now "BICC" .BUY 0 none).1 = true ∧
    (execute_order market_data st now "BICC" .BUY 0 none).2.2.cash_balance =
      st.cash_balance - 5000 := by
  have hm : lookupEntry market_data "BICC" = some ⟨8500, 2.5, 15000, "Construction"⟩ := rfl
  unfold execute_order
  rw [hm]
  dsimp only [resolveOrderPrice, calculate_price_limits, calculate_commission]
  norm_num [static_limit, commission_rate, min_commission]
  rw [if_neg (not_lt.mpr h)]
  norm_num

/-- C3 witness: the amended claim instantiated at the initial state. -/
theorem C3_zero_quantity_buy_accepted_witness :
    (execute_order market_data initial_state 0 "BICC" .BUY 0 none).1 = true ∧
    (execute_order market_data initial_state 0 "BICC" .BUY 0 none).2.2.cash_balance =
      initial_state.cash_balance - 5000 :=
  C3_zero_quantity_buy_accepted initial_state 0 (by norm_num [initial_state])

end BRVM

namespace BRVM

/-- C4 (confirmed): whenever execute_order reports failure, the post
state equals the pre state: the cash balance, the portfolio map and the
transaction log are all exactly as they were before the call. -/
theorem C4_rejection_preserves_state (market : List (String × MarketInfo))
    (st : State) (now : ℤ) (symbol : String) (ty : Side) (quantity : ℤ)
    (price : Option ℚ)
    (hrej : (execute_order market st now symbol ty quantity price).1 = false) :
    (execute_order market st now symbol ty quantity price).2.2 = st := by
  unfold execute_order at hrej ⊢
  cases hm : lookupEntry market symbol with
  | none => rfl
  | some info =>
    rw [hm] at hrej
    dsimp only
    cases ty with
    | BUY => split_ifs at hrej ⊢ <;> first | rfl | simp_all
    | SELL =>
      cases hp : lookupEntry st.portfolio symbol with
      | none => split_ifs at hrej ⊢ <;> first | rfl | simp_all
      | some pos =>
        dsimp only at hrej ⊢
        split_ifs at hrej ⊢ <;> first | rfl | simp_all

/-- C4 witness: a SELL on the empty initial portfolio (scenario B) is
rejected and leaves the state untouched. -/
theorem C4_rejection_preserves_state_witness :
    (execute_order market_data initial_state 0 "BICC" .SELL 10 none).2.2 =
      initial_state :=
  C4_rejection_preserves_state market_data initial_state 0 "BICC" .SELL 10 none
    (by rw [sell_initial_rejected])

/-- C5 (confirmed): every accepted BUY of quantity q at the resolved
execution price p debits exactly q times p plus commission(q times p),
and the position quantity for the symbol grows by exactly q, the
position being created with quantity q, average price p and the
instrument sector when the symbol was absent. -/
theorem C5_buy_effects (market : List (String × MarketInfo)) (st : State)
    (now : ℤ) (symbol : String) (quantity : ℤ) (price : Option ℚ)
    (info : MarketInfo)
    (hmd : lookupEntry market symbol = some info)
    (hacc : (execute_order market st now symbol .BUY quantity price).1 = true) :
    (execute_order market st now symbol .BUY quantity price).2.2.cash_balance =
      st.cash_balance - ((quantity : ℚ) * resolveOrderPrice info.price price
        + calculate_commission ((quantity : ℚ) * resolveOrderPrice info.price price)) ∧
    (lookupEntry (execute_order market st now symbol .BUY quantity price).2.2.portfolio
        symbol).map Position.quantity =
      some ((match lookupEntry st.portfolio symbol with
             | some pos => pos.quantity
             | none => 0) + quantity) ∧
    (lookupEntry st.portfolio symbol = none →
      lookupEntry (execute_order market st now symbol .BUY quantity price).2.2.portfolio
          symbol =
        some ⟨quantity, resolveOrderPrice info.price price, info.sector⟩) := by
  unfold execute_order at hacc ⊢
  rw [hmd] at hacc ⊢
  dsimp only at hacc ⊢
  split_ifs at hacc ⊢
  cases hp : lookupEntry st.portfolio symbol with
  | none =>
    dsimp only
    refine ⟨rfl, ?_, fun _ => lookup_setEntry _ _ _⟩
    rw [lookup_setEntry]
    simp
  | some pos =>
    dsimp only
    refine ⟨rfl, ?_, fun hc => by simp at hc⟩
    rw [lookup_setEntry]
    simp

/-- C5 witness: scenario A (BUY 10 BICC at 8500 with no limit)
instantiates the claim: debit 90000, new position of 10 at 8500. -/
theorem C5_buy_effects_witness :
    (execute_order market_data initial_state 0 "BICC" .BUY 10 none).2.2.cash_balance =
      initial_state.cash_balance - (((10 : ℤ) : ℚ) * resolveOrderPrice infoBICC.price none
        + calculate_commission (((10 : ℤ) : ℚ) * resolveOrderPrice infoBICC.price none)) ∧
    (lookupEntry (execute_order market_data initial_state 0 "BICC" .BUY 10 none).2.2.portfolio
        "BICC").map Position.quantity =
      some ((match lookupEntry initial_state.portfolio "BICC" with
             | some pos => pos.quantity
             | none => 0) + 10) ∧
    (lookupEntry initial_state.portfolio "BICC" = none →
      lookupEntry (execute_order market_data initial_state 0 "BICC" .BUY 10 none).2.2.portfolio
          "BICC" =
        some ⟨10, resolveOrderPrice infoBICC.price none, infoBICC.sector⟩) :=
  C5_buy_effects market_data initial_state 0 "BICC" 10 none infoBICC rfl
    (by rw [buyA_result])

/-- C6 (confirmed): every accepted SELL of quantity q at the resolved
execution price p requires q at most the held quantity, credits exactly
q times p minus commission(q times p), removes the position exactly when
the remaining quantity is 0, and leaves the average price of a remaining
position unchanged. -/
theorem C6_sell_effects (market : List (String × MarketInfo)) (st : State)
    (now : ℤ) (symbol : String) (quantity : ℤ) (price : Option ℚ)
    (info : MarketInfo) (pos : Position)
    (hmd : lookupEntry market symbol = some info)
    (hpos : lookupEntry st.portfolio symbol = some pos)
    (hacc : (execute_order market st now symbol .SELL quantity price).1 = true) :
    quantity ≤ pos.quantity ∧
    (execute_order market st now symbol .SELL quantity price).2.2.cash_balance =
      st.cash_balance + ((quantity : ℚ) * resolveOrderPrice info.price price
        - calculate_commission ((quantity : ℚ) * resolveOrderPrice info.price price)) ∧
    (pos.quantity - quantity = 0 →
      lookupEntry (execute_order market st now symbol .SELL quantity price).2.2.portfolio
        symbol = none) ∧
    (pos.quantity - quantity ≠ 0 →
      lookupEntry (execute_order market st now symbol .SELL quantity price).2.2.portfolio
          symbol =
        some ⟨pos.quantity - quantity, pos.avg_price, pos.sector⟩) := by
  unfold execute_order at hacc ⊢
  rw [hmd, hpos] at hacc ⊢
  dsimp only at hacc ⊢
  split_ifs at hacc ⊢ with h1 h2 h3
  · exact ⟨le_of_not_lt h2, rfl, fun _ => lookup_eraseEntry _ _, fun hc => absurd h3 hc⟩
  · exact ⟨le_of_not_lt h2, rfl, fun hc => absurd hc h3, fun _ => lookup_setEntry _ _ _⟩

/-- C6 witness: selling 4 of the 10 BICC shares held after scenario A
credits 29000 and keeps the position at 6 shares with average 8500. -/
theorem C6_sell_effects_witness :
    (4 : ℤ) ≤ posA.quantity ∧
    (execute_order market_data stateA 0 "BICC" .SELL 4 none).2.2.cash_balance =
      stateA.cash_balance + (((4 : ℤ) : ℚ) * resolveOrderPrice infoBICC.price none
        - calculate_commission (((4 : ℤ) : ℚ) * resolveOrderPrice infoBICC.price none)) ∧
    (posA.quantity - 4 = 0 →
      lookupEntry (execute_order market_data stateA 0 "BICC" .SELL 4 none).2.2.portfolio
        "BICC" = none) ∧
    (posA.quantity - 4 ≠ 0 →
      lookupEntry (execute_order market_data stateA 0 "BICC" .SELL 4 none).2.2.portfolio
          "BICC" =
        some ⟨posA.quantity - 4, posA.avg_price, posA.sector⟩) :=
  C6_sell_effects market_data stateA 0 "BICC" 4 none infoBICC posA rfl rfl
    (by rw [sellA_result])

/-- C7 (confirmed): for reference price R the permissible band is
R times 0.925 to R times 1.075 inclusive: the result message is the
PriceOutOfBand rejection exactly when the resolved execution price lies
strictly outside the band (so a price exactly on either boundary is
never rejected for the band), and an out-of-band price yields the full
rejection with those limits and an unchanged state. -/
theorem C7_price_band (market : List (String × MarketInfo)) (st : State)
    (now : ℤ) (symbol : String) (ty : Side) (quantity : ℤ) (price : Option ℚ)
    (info : MarketInfo)
    (hmd : lookupEntry market symbol = some info) :
    ((execute_order market st now symbol ty quantity price).2.1.isOutOfBand = true ↔
      (resolveOrderPrice info.price price < info.price * 0.925 ∨
       resolveOrderPrice info.price price > info.price * 1.075)) ∧
    ((resolveOrderPrice info.price price < info.price * 0.925 ∨
      resolveOrderPrice info.price price > info.price * 1.075) →
      execute_order market st now symbol ty quantity price =
        (false, .priceOutOfLimits (info.price * 0.925) (info.price * 1.075), st)) := by
  have hl : info.price * (1 - static_limit) = info.price * 0.925 := by
    norm_num [static_limit]
  have hu : info.price * (1 + static_limit) = info.price * 1.075 := by
    norm_num [static_limit]
  unfold execute_order
  rw [hmd]
  dsimp only [calculate_price_limits]
  rw [hl, hu]
  by_cases hband : (resolveOrderPrice info.price price < info.price * 0.925 ∨
      resolveOrderPrice info.price price > info.price * 1.075)
  · rw [if_pos hband]
    exact ⟨by simp [ExecMessage.isOutOfBand, hband], fun _ => rfl⟩
  · rw [if_neg hband]
    refine ⟨?_, fun hc => absurd hc hband⟩
    cases ty with
    | BUY =>
      split_ifs <;> simp [ExecMessage.isOutOfBand, hband]
    | SELL =>
      cases hp : lookupEntry st.portfolio symbol with
      | none => simp [ExecMessage.isOutOfBand, hband]
      | some pos =>
        dsimp only
        split_ifs <;> simp [ExecMessage.isOutOfBand, hband]

/-- C7 witness: scenario C, a limit price of 9200 against reference 8500
(band 7862.5 to 9137.5) is strictly above the upper limit, and the claim
instance yields the PriceOutOfBand rejection with no state change. -/
theorem C7_price_band_witness :
    ((execute_order market_data initial_state 0 "BICC" .BUY 10 (some 9200)).2.1.isOutOfBand = true ↔
      (resolveOrderPrice infoBICC.price (some 9200) < infoBICC.price * 0.925 ∨
       resolveOrderPrice infoBICC.price (some 9200) > infoBICC.price * 1.075)) ∧
    ((resolveOrderPrice infoBICC.price (some 9200) < infoBICC.price * 0.925 ∨
      resolveOrderPrice infoBICC.price (some 9200) > infoBICC.price * 1.075) →
      execute_order market_data initial_state 0 "BICC" .BUY 10 (some 9200) =
        (false, .priceOutOfLimits (infoBICC.price * 0.925) (infoBICC.price * 1.075),
          initial_state)) :=
  C7_price_band market_data initial_state 0 "BICC" .BUY 10 (some 9200) infoBICC rfl

end BRVM

namespace BRVM

/-- C8 counterexample: a BUY of 2000 BICC from the initial state exceeds
both the liquidity cap (2000 over 10 percent of volume 15000) and the
cash balance (total cost 17102000 over 1000000), yet the returned reason
is the insufficient-funds one, not the liquidity one: the claim that the
liquidity check runs first is false on the code. -/
theorem C8_both_checks_fail_reason_cex :
    execute_order market_data initial_state 0 "BICC" .BUY 2000 none =
      (false, .insufficientFunds, initial_state) ∧
    ExecMessage.insufficientFunds ≠ ExecMessage.quantityTooLarge := by
  refine ⟨?_, by simp⟩
  simp only [execute_order, market_data, initial_state, lookupEntry,
    resolveOrderPrice, calculate_price_limits, calculate_commission, static_limit,
    commission_rate, min_commission, settlement_days]
  norm_num

/-- C8 (amended): within the BUY branch the funds check precedes the
liquidity check: a BUY whose total cost exceeds the cash balance is
rejected with the insufficient-funds reason even when its quantity also
exceeds 10 percent of the average daily volume. -/
theorem C8_funds_check_precedes_liquidity (market : List (String × MarketInfo))
    (st : State) (now : ℤ) (symbol : String) (quantity : ℤ) (price : Option ℚ)
    (info : MarketInfo)
    (hmd : lookupEntry market symbol = some info)
    (hband : ¬(resolveOrderPrice info.price price < info.price * (1 - static_limit) ∨
               resolveOrderPrice info.price price > info.price * (1 + static_limit)))
    (hfunds : st.cash_balance < (quantity : ℚ) * resolveOrderPrice info.price price +
      calculate_commission ((quantity : ℚ) * resolveOrderPrice info.price price))
    (hliq : (quantity : ℚ) > info.volume * 0.1) :
    execute_order market st now symbol .BUY quantity price =
      (false, .insufficientFunds, st) := by
  unfold execute_order
  rw [hmd]
  dsimp only [calculate_price_limits]
  rw [if_neg hband]
  rw [if_pos hfunds]

/-- C8 witness: the amended claim instantiated at the BUY of 2000 BICC. -/
theorem C8_funds_check_precedes_liquidity_witness :
    execute_order market_data initial_state 0 "BICC" .BUY 2000 none =
      (false, .insufficientFunds, initial_state) :=
  C8_funds_check_precedes_liquidity market_data initial_state 0 "BICC" 2000 none
    infoBICC rfl
    (by norm_num [resolveOrderPrice, static_limit, infoBICC])
    (by norm_num [resolveOrderPrice, calculate_commission, commission_rate,
      min_commission, initial_state, infoBICC])
    (by norm_num [infoBICC])

/-- C9 counterexample: the transaction recorded for the scenario A BUY
stores total = 90000, the positive total cost, not a negative net cash
flow as the claim states. -/
theorem C9_buy_total_positive_cex :
    (execute_order market_data initial_state 0 "BICC" .BUY 10 none).2.2.transactions.map
      Transaction.total = [90000] ∧ ¬((90000 : ℚ) < 0) := by
  rw [buyA_result]
  refine ⟨?_, by norm_num⟩
  simp [stateA, txnA, initial_state]

/-- C9 (amended): every executed order appends exactly one transaction;
its total field records the unsigned magnitude quantity times price plus
commission for a BUY (the total cost, a positive amount, not a negative
flow) and quantity times price minus commission for a SELL (the net
proceeds, which the minimum commission can make negative). -/
theorem C9_transaction_total (market : List (String × MarketInfo)) (st : State)
    (now : ℤ) (symbol : String) (ty : Side) (quantity : ℤ) (price : Option ℚ)
    (info : MarketInfo)
    (hmd : lookupEntry market symbol = some info)
    (hacc : (execute_order market st now symbol ty quantity price).1 = true) :
    (execute_order market st now symbol ty quantity price).2.2.transactions =
      st.transactions ++
        [⟨now, symbol, ty, quantity, resolveOrderPrice info.price price,
          calculate_commission ((quantity : ℚ) * resolveOrderPrice info.price price),
          (match ty with
           | .BUY => (quantity : ℚ) * resolveOrderPrice info.price price +
               calculate_commission ((quantity : ℚ) * resolveOrderPrice info.price price)
           | .SELL => (quantity : ℚ) * resolveOrderPrice info.price price -
               calculate_commission ((quantity : ℚ) * resolveOrderPrice info.price price)),
          now + settlement_days⟩] := by
  unfold execute_order at hacc ⊢
  simp only [hmd] at hacc ⊢
  cases ty with
  | BUY =>
    dsimp only at hacc ⊢
    split_ifs at hacc ⊢
    rfl
  | SELL =>
    dsimp only at hacc ⊢
    cases hp : lookupEntry st.portfolio symbol with
    | none =>
      simp only [hp] at hacc
      split at hacc <;> simp_all
    | some pos =>
      simp only [hp] at hacc ⊢
      split_ifs at hacc ⊢ <;> rfl

/-- C9 witness: the amended claim instantiated at scenario A. -/
theorem C9_transaction_total_witness :
    (execute_order market_data initial_state 0 "BICC" .BUY 10 none).2.2.transactions =
      initial_state.transactions ++
        [⟨0, "BICC", .BUY, 10, resolveOrderPrice infoBICC.price none,
          calculate_commission (((10 : ℤ) : ℚ) * resolveOrderPrice infoBICC.price none),
          (match (Side.BUY : Side) with
           | .BUY => ((10 : ℤ) : ℚ) * resolveOrderPrice infoBICC.price none +
               calculate_commission (((10 : ℤ) : ℚ) * resolveOrderPrice infoBICC.price none)
           | .SELL => ((10 : ℤ) : ℚ) * resolveOrderPrice infoBICC.price none -
               calculate_commission (((10 : ℤ) : ℚ) * resolveOrderPrice infoBICC.price none)),
          0 + settlement_days⟩] :=
  C9_transaction_total market_data initial_state 0 "BICC" .BUY 10 none infoBICC rfl
    (by rw [buyA_result])

/-- C10 (confirmed): the trading window is advisory only: the clock
parameter (the value of datetime.now()) influences neither the success
flag nor the returned message of execute_order, so two runs from the same
account and market state at different times, inside or outside trading
hours, make the same accept or reject decision with the same reason. -/
theorem C10_decision_time_independent (market : List (String × MarketInfo))
    (st : State) (symbol : String) (ty : Side) (quantity : ℤ) (price : Option ℚ)
    (t1 t2 : ℤ) :
    (execute_order market st t1 symbol ty quantity price).1 =
      (execute_order market st t2 symbol ty quantity price).1 ∧
    (execute_order market st t1 symbol ty quantity price).2.1 =
      (execute_order market st t2 symbol ty quantity price).2.1 := by
  unfold execute_order
  cases hm : lookupEntry market symbol with
  | none => exact ⟨rfl, rfl⟩
  | some info =>
    dsimp only
    cases ty with
    | BUY =>
      split_ifs <;> exact ⟨rfl, rfl⟩
    | SELL =>
      cases hp : lookupEntry st.portfolio symbol with
      | none => split_ifs <;> exact ⟨rfl, rfl⟩
      | some pos =>
        dsimp only
        split_ifs <;> exact ⟨rfl, rfl⟩

end BRVM
